import Mathlib

/-!
Shallow embedding of the `three-sun` effect-simulation core.

The numeric state of the TypeScript code (which computes with JS doubles) is
modelled over the real numbers; every update function below is transcribed
from the corresponding TypeScript method, with its source location noted in
the doc comment.  Fields that the animation code never reads or writes after
construction (mesh positions, quaternions, colour uniforms that are rewritten
with constant option values each frame, renderOrder, depth flags) are not
tracked; every field that any claim touches is.
-/

noncomputable section

namespace ThreeSun

/-- Numeric components of a three.js `Vector3` / `Euler`. -/
structure Vec3 where
  x : ℝ
  y : ℝ
  z : ℝ

/-- JavaScript number defaulting `v || d`: the number `0` is falsy, every other
(finite, non-NaN) number is truthy. -/
def orDefault (v d : ℝ) : ℝ := if v = 0 then d else v

/-- `Math.floor` as a real-valued function (JS numbers stay numbers). -/
def mathFloor (v : ℝ) : ℝ := (⌊v⌋ : ℝ)

/-- `ThreeSunService.randomBetween(min, max)` = `min + Math.random() * (max - min)`,
with the `Math.random()` draw `u` made an explicit argument. -/
def randomBetween (lo hi u : ℝ) : ℝ := lo + u * (hi - lo)

/-- Number of iterations of the JS loop `for (let i = 0; i < c; i++)` for a
numeric (not necessarily integral) bound `c`. -/
def jsLoopCount (c : ℝ) : ℕ := (Int.ceil c).toNat

/-- three.js `Vector3.distanceTo`. -/
def distTo (a b : Vec3) : ℝ :=
  Real.sqrt ((b.x - a.x) ^ 2 + (b.y - a.y) ^ 2 + (b.z - a.z) ^ 2)

/-- Truncation toward zero, as used by the JavaScript `%` operator. -/
def jsTrunc (q : ℝ) : ℤ := if 0 ≤ q then ⌊q⌋ else ⌈q⌉

/-- JavaScript remainder `a % b` (truncated-division remainder). -/
def jsMod (a b : ℝ) : ℝ := a - b * (jsTrunc (a / b) : ℝ)

/-- The uniforms of one flare `ShaderMaterial` that the animation code writes
per frame: `opacity` and `time` (classes/solar-flare.ts and the
`SolarFlareService`).  The colour/noise uniforms are rewritten every frame
with constant option values and are not tracked. -/
structure FlareMaterial where
  opacity : ℝ
  time : ℝ

/-- State of one `SolarFlare` instance (classes/solar-flare.ts): its options,
the two shared layer materials and the per-mesh uniform scale of each panel
mesh (one list entry per mesh, in creation order).  Panel positions and
orientations are set once at spawn and never mutated afterwards, so they are
not tracked; `id` stands for the object identity used by
`sun.solarFlares.indexOf(this)`. -/
structure SolarFlare where
  id : ℕ
  age : ℝ
  destroyed : Bool
  size : ℝ
  lifetime : ℝ
  plasmaTrails : ℝ
  flareCount : ℝ
  turbulance : ℝ
  shaderOpacity : ℝ
  shaderSpeed : ℝ
  fallingBackMat : FlareMaterial
  flyAwayMat : FlareMaterial
  fallingBackScales : List ℝ
  flyAwayScales : List ℝ
  flareMesh : Bool

/-- The fade law of `SolarFlare.animate` (solar-flare.ts line 184):
`Math.max(Math.sin(normalizedAge * Math.PI), 0)`. -/
def fade (normalizedAge : ℝ) : ℝ := max (Real.sin (normalizedAge * Real.pi)) 0

/-- One iteration of the per-mesh `forEach` in `SolarFlare.animate`
(lines 190-205): the layer's shared material receives `opacity := fade²` and
`time += deltaTime * turbulance`. -/
def SolarFlare.meshPass (deltaTime turbulance fadeValue : ℝ)
    (mat : FlareMaterial) : FlareMaterial :=
  { opacity := fadeValue * fadeValue, time := mat.time + deltaTime * turbulance }

/-- Lines 177-205 of `SolarFlare.animate`: advance `age`, run
`SolarFlareService.animate` (which adds `deltaTime * options.speed` to both
layer material clocks and rewrites the option uniforms, in particular
`opacity := options.opacity`), then run both per-mesh loops, which write
`opacity := fade²`, advance the material clock by `deltaTime * turbulance`
once per mesh, and set every mesh scale to `size * fade / 10`. -/
def SolarFlare.updateVisuals (f : SolarFlare) (deltaTime : ℝ) : SolarFlare :=
  let age1 := f.age + deltaTime
  let fb1 : FlareMaterial :=
    { opacity := f.shaderOpacity,
      time := f.fallingBackMat.time + deltaTime * f.shaderSpeed }
  let fa1 : FlareMaterial :=
    { opacity := f.shaderOpacity,
      time := f.flyAwayMat.time + deltaTime * f.shaderSpeed }
  let normalizedAge := age1 / f.lifetime
  let fadeValue := fade normalizedAge
  let scale := f.size * fadeValue / 10
  let fa2 := f.flyAwayScales.foldl
    (fun m _ => SolarFlare.meshPass deltaTime f.turbulance fadeValue m) fa1
  let fb2 := f.fallingBackScales.foldl
    (fun m _ => SolarFlare.meshPass deltaTime f.turbulance fadeValue m) fb1
  { f with
    age := age1
    fallingBackMat := fb2
    flyAwayMat := fa2
    flyAwayScales := f.flyAwayScales.map (fun _ => scale)
    fallingBackScales := f.fallingBackScales.map (fun _ => scale) }

/-- The self-mutating part of `SolarFlare.destroy` (lines 217-256): guarded by
`destroyed`, it empties both mesh arrays, drops the service's optional
`flareMesh`, and finally sets `destroyed := true`. -/
def SolarFlare.destroySelf (f : SolarFlare) : SolarFlare :=
  if f.destroyed then f
  else { f with
    flyAwayScales := []
    fallingBackScales := []
    flareMesh := false
    destroyed := true }

/-- The self-mutating part of `SolarFlare.animate` (lines 174-211): no-op when
already destroyed, otherwise the visual update followed by the lifespan check
`if (this.age >= this.options.lifetime) this.destroy()`. -/
def SolarFlare.animateSelf (f : SolarFlare) (deltaTime : ℝ) : SolarFlare :=
  if f.destroyed then f
  else
    let f1 := f.updateVisuals deltaTime
    if f1.lifetime ≤ f1.age then f1.destroySelf else f1

/-- One `SolarFlare` instance together with the `sun.solarFlares` registry it
splices itself out of; the registry holds the ids of the registered flares. -/
structure FlareWorld where
  sunFlares : List ℕ
  flare : SolarFlare

/-- `SolarFlare.destroy` (lines 217-256): guarded by `destroyed`; removes the
first occurrence of this flare from `sun.solarFlares`
(`indexOf` + `splice`, a no-op when absent, exactly `List.erase`), then the
self-mutating teardown. -/
def FlareWorld.destroy (w : FlareWorld) : FlareWorld :=
  if w.flare.destroyed then w
  else { sunFlares := w.sunFlares.erase w.flare.id, flare := w.flare.destroySelf }

/-- `SolarFlare.animate` (lines 174-211) as seen from one flare and the
registry. -/
def FlareWorld.animate (w : FlareWorld) (deltaTime : ℝ) : FlareWorld :=
  if w.flare.destroyed then w
  else
    let f1 := w.flare.updateVisuals deltaTime
    if f1.lifetime ≤ f1.age then FlareWorld.destroy { w with flare := f1 }
    else { w with flare := f1 }

/-- `SolarFlare.spawnSolarFlare` (lines 111-166): the panel loop runs
`for (let i = 0; i < flareCount; i++)`, creating one falling-back and one
fly-away mesh per iteration (each with scale 1), and afterwards the flare is
pushed onto `sun.solarFlares` unconditionally. -/
def FlareWorld.spawnSolarFlare (w : FlareWorld) : FlareWorld :=
  let n := jsLoopCount w.flare.flareCount
  { sunFlares := w.sunFlares ++ [w.flare.id],
    flare := { w.flare with
      fallingBackScales := List.replicate n 1
      flyAwayScales := List.replicate n 1 } }

/-- Folding the whole of `SolarFlare.animate` over a list of frame deltas. -/
def FlareWorld.run (w : FlareWorld) (deltas : List ℝ) : FlareWorld :=
  deltas.foldl FlareWorld.animate w

theorem fade_eq_sin {x : ℝ} (h0 : 0 ≤ x) (h1 : x ≤ 1) :
    fade x = Real.sin (x * Real.pi) := by
  have hπ := Real.pi_pos
  exact max_eq_left (Real.sin_nonneg_of_nonneg_of_le_pi
    (mul_nonneg h0 hπ.le) (by nlinarith))

theorem fade_zero : fade 0 = 0 := by
  simp [fade]

theorem fade_one : fade 1 = 0 := by
  simp [fade, Real.sin_pi]

theorem fade_half : fade (1 / 2) = 1 := by
  have : (1 / 2 : ℝ) * Real.pi = Real.pi / 2 := by ring
  rw [fade, this, Real.sin_pi_div_two]
  simp

theorem fade_incr {a b : ℝ} (ha : 0 ≤ a) (hab : a ≤ b) (hb : b ≤ 1 / 2) :
    fade a ≤ fade b := by
  have hπ := Real.pi_pos
  rw [fade_eq_sin ha (by linarith), fade_eq_sin (ha.trans hab) (by linarith)]
  refine Real.strictMonoOn_sin.monotoneOn ⟨by nlinarith, by nlinarith⟩
    ⟨by nlinarith, by nlinarith⟩ ?_
  exact mul_le_mul_of_nonneg_right hab hπ.le

theorem fade_decr {a b : ℝ} (ha : 1 / 2 ≤ a) (hab : a ≤ b) (hb : b ≤ 1) :
    fade b ≤ fade a := by
  have hπ := Real.pi_pos
  have ha0 : (0 : ℝ) ≤ a := by linarith
  rw [fade_eq_sin ha0 (hab.trans hb), fade_eq_sin (ha0.trans hab) hb]
  rw [← Real.sin_pi_sub (b * Real.pi), ← Real.sin_pi_sub (a * Real.pi)]
  refine Real.strictMonoOn_sin.monotoneOn ⟨by nlinarith, by nlinarith⟩
    ⟨by nlinarith, by nlinarith⟩ ?_
  nlinarith

theorem meshPass_foldl_opacity (deltaTime turbulance fadeValue : ℝ)
    (l : List ℝ) (m0 : FlareMaterial) (hl : l ≠ []) :
    (l.foldl (fun m _ => SolarFlare.meshPass deltaTime turbulance fadeValue m)
      m0).opacity = fadeValue * fadeValue := by
  induction l generalizing m0 with
  | nil => exact absurd rfl hl
  | cons a t ih =>
    cases t with
    | nil => simp [SolarFlare.meshPass]
    | cons b t2 => exact ih _ (by simp)

/-- Claim C1: per advance of a live flare with positive lifetime, the fade
value is `max(sin(normalizedAge·π), 0)` with `normalizedAge = age/lifetime`
taken after the age increment; every panel mesh of both layers gets the
uniform scale `size·fade/10` and both layer materials get opacity `fade²`;
and on `[0,1]` the fade law vanishes at the endpoints, equals 1 at 1/2, is
monotonically increasing on `[0,1/2]` and monotonically decreasing on
`[1/2,1]`. -/
theorem solarFlare_fade_scale_opacity_spec (f : SolarFlare) (deltaTime : ℝ)
    (hdes : f.destroyed = false) (hL : 0 < f.lifetime) :
    (∀ t : ℝ, fade t = max (Real.sin (t * Real.pi)) 0) ∧
    (f.updateVisuals deltaTime).flyAwayScales
      = f.flyAwayScales.map
        (fun _ => f.size * fade ((f.age + deltaTime) / f.lifetime) / 10) ∧
    (f.updateVisuals deltaTime).fallingBackScales
      = f.fallingBackScales.map
        (fun _ => f.size * fade ((f.age + deltaTime) / f.lifetime) / 10) ∧
    (f.flyAwayScales ≠ [] →
      (f.updateVisuals deltaTime).flyAwayMat.opacity
        = fade ((f.age + deltaTime) / f.lifetime)
          * fade ((f.age + deltaTime) / f.lifetime)) ∧
    (f.fallingBackScales ≠ [] →
      (f.updateVisuals deltaTime).fallingBackMat.opacity
        = fade ((f.age + deltaTime) / f.lifetime)
          * fade ((f.age + deltaTime) / f.lifetime)) ∧
    fade 0 = 0 ∧ fade 1 = 0 ∧ fade (1 / 2) = 1 ∧
    (∀ a b : ℝ, 0 ≤ a → a ≤ b → b ≤ 1 / 2 → fade a ≤ fade b) ∧
    (∀ a b : ℝ, 1 / 2 ≤ a → a ≤ b → b ≤ 1 → fade b ≤ fade a) := by
  refine ⟨fun t => rfl, rfl, rfl, ?_, ?_, fade_zero, fade_one, fade_half,
    fun a b ha hab hb => fade_incr ha hab hb,
    fun a b ha hab hb => fade_decr ha hab hb⟩
  · intro hne
    exact meshPass_foldl_opacity _ _ _ _ _ hne
  · intro hne
    exact meshPass_foldl_opacity _ _ _ _ _ hne

/-- A concrete live flare used to instantiate the C1 theorem. -/
def sampleFlareC1 : SolarFlare :=
  { id := 0, age := 0, destroyed := false, size := 10, lifetime := 4
    plasmaTrails := 4, flareCount := 3, turbulance := 1
    shaderOpacity := 1, shaderSpeed := 1
    fallingBackMat := ⟨1, 0⟩, flyAwayMat := ⟨1, 0⟩
    fallingBackScales := [1, 1, 1], flyAwayScales := [1, 1, 1]
    flareMesh := true }

theorem solarFlare_fade_scale_opacity_spec_witness :
    sampleFlareC1.destroyed = false ∧ (0 : ℝ) < sampleFlareC1.lifetime ∧
    ((∀ t : ℝ, fade t = max (Real.sin (t * Real.pi)) 0) ∧
    (sampleFlareC1.updateVisuals 1).flyAwayScales
      = sampleFlareC1.flyAwayScales.map
        (fun _ => sampleFlareC1.size
          * fade ((sampleFlareC1.age + 1) / sampleFlareC1.lifetime) / 10) ∧
    (sampleFlareC1.updateVisuals 1).fallingBackScales
      = sampleFlareC1.fallingBackScales.map
        (fun _ => sampleFlareC1.size
          * fade ((sampleFlareC1.age + 1) / sampleFlareC1.lifetime) / 10) ∧
    (sampleFlareC1.flyAwayScales ≠ [] →
      (sampleFlareC1.updateVisuals 1).flyAwayMat.opacity
        = fade ((sampleFlareC1.age + 1) / sampleFlareC1.lifetime)
          * fade ((sampleFlareC1.age + 1) / sampleFlareC1.lifetime)) ∧
    (sampleFlareC1.fallingBackScales ≠ [] →
      (sampleFlareC1.updateVisuals 1).fallingBackMat.opacity
        = fade ((sampleFlareC1.age + 1) / sampleFlareC1.lifetime)
          * fade ((sampleFlareC1.age + 1) / sampleFlareC1.lifetime)) ∧
    fade 0 = 0 ∧ fade 1 = 0 ∧ fade (1 / 2) = 1 ∧
    (∀ a b : ℝ, 0 ≤ a → a ≤ b → b ≤ 1 / 2 → fade a ≤ fade b) ∧
    (∀ a b : ℝ, 1 / 2 ≤ a → a ≤ b → b ≤ 1 → fade b ≤ fade a)) :=
  ⟨rfl, by norm_num [sampleFlareC1],
    solarFlare_fade_scale_opacity_spec sampleFlareC1 1 rfl
      (by norm_num [sampleFlareC1])⟩

theorem updateVisuals_age (f : SolarFlare) (d : ℝ) :
    (f.updateVisuals d).age = f.age + d := rfl

theorem updateVisuals_lifetime (f : SolarFlare) (d : ℝ) :
    (f.updateVisuals d).lifetime = f.lifetime := rfl

theorem updateVisuals_destroyed (f : SolarFlare) (d : ℝ) :
    (f.updateVisuals d).destroyed = f.destroyed := rfl

theorem animate_of_destroyed {w : FlareWorld} (h : w.flare.destroyed = true)
    (d : ℝ) : w.animate d = w := by
  simp [FlareWorld.animate, h]

theorem destroy_of_destroyed {w : FlareWorld} (h : w.flare.destroyed = true) :
    w.destroy = w := by
  simp [FlareWorld.destroy, h]

theorem destroySelf_destroyed (f : SolarFlare) :
    f.destroySelf.destroyed = true := by
  by_cases h : f.destroyed = true
  · simp [SolarFlare.destroySelf, h]
  · simp only [Bool.not_eq_true] at h
    simp [SolarFlare.destroySelf, h]

theorem destroy_flare_destroyed (w : FlareWorld) :
    w.destroy.flare.destroyed = true := by
  by_cases h : w.flare.destroyed = true
  · rw [destroy_of_destroyed h]; exact h
  · simp only [Bool.not_eq_true] at h
    simp [FlareWorld.destroy, h, destroySelf_destroyed]

theorem animate_destroyed_iff {w : FlareWorld} (h : w.flare.destroyed = false)
    (d : ℝ) :
    ((w.animate d).flare.destroyed = true
      ↔ w.flare.lifetime ≤ w.flare.age + d) := by
  rw [FlareWorld.animate, h]
  simp only [Bool.false_eq_true, if_false]
  by_cases hc : (w.flare.updateVisuals d).lifetime ≤ (w.flare.updateVisuals d).age
  · rw [if_pos hc]
    rw [updateVisuals_lifetime, updateVisuals_age] at hc
    exact iff_of_true (destroy_flare_destroyed _) hc
  · rw [if_neg hc]
    rw [updateVisuals_lifetime, updateVisuals_age] at hc
    simpa [updateVisuals_destroyed, h] using hc

theorem animate_not_expired {w : FlareWorld} (h : w.flare.destroyed = false)
    {d : ℝ} (hc : ¬ w.flare.lifetime ≤ w.flare.age + d) :
    (w.animate d).flare.destroyed = false
      ∧ (w.animate d).flare.age = w.flare.age + d
      ∧ (w.animate d).flare.lifetime = w.flare.lifetime := by
  rw [FlareWorld.animate, h]
  simp only [Bool.false_eq_true, if_false]
  rw [if_neg (by rwa [updateVisuals_lifetime, updateVisuals_age])]
  exact ⟨by rw [updateVisuals_destroyed, h], rfl, rfl⟩

theorem run_of_destroyed {w : FlareWorld} (h : w.flare.destroyed = true)
    (ds : List ℝ) : w.run ds = w := by
  induction ds with
  | nil => rfl
  | cons d t ih =>
    show (w.animate d).run t = w
    rw [animate_of_destroyed h, ih]

theorem run_destroyed_iff (ds : List ℝ) :
    ∀ w : FlareWorld, w.flare.destroyed = false →
      w.flare.age < w.flare.lifetime → (∀ d ∈ ds, 0 < d) →
      ((w.run ds).flare.destroyed = true
        ↔ w.flare.lifetime ≤ w.flare.age + ds.sum) := by
  induction ds with
  | nil =>
    intro w hdes hage _
    simp only [FlareWorld.run, List.foldl_nil, List.sum_nil, add_zero]
    exact iff_of_false (by simp [hdes]) (not_le.mpr hage)
  | cons d t ih =>
    intro w hdes hage hpos
    have hrun : w.run (d :: t) = (w.animate d).run t := rfl
    have htsum : (0 : ℝ) ≤ t.sum :=
      List.sum_nonneg (fun x hx => (hpos x (List.mem_cons_of_mem d hx)).le)
    rw [hrun, List.sum_cons]
    by_cases hc : w.flare.lifetime ≤ w.flare.age + d
    · have hdes1 : (w.animate d).flare.destroyed = true :=
        (animate_destroyed_iff hdes d).mpr hc
      rw [run_of_destroyed hdes1]
      exact iff_of_true hdes1 (by linarith)
    · obtain ⟨h1, h2, h3⟩ := animate_not_expired hdes hc
      have := ih (w.animate d) h1 (by rw [h2, h3]; linarith [not_le.mp hc])
        (fun x hx => hpos x (List.mem_cons_of_mem d hx))
      rw [this, h2, h3]
      constructor <;> intro hh <;> linarith

/-- Claim C2: starting from a fresh flare (age 0, live) with positive
lifetime, over any sequence of positive frame deltas, `destroyed` ends up
true exactly when the accumulated age has reached the lifetime; moreover a
single `animate` call on any live flare sets `destroyed` exactly when the
incremented age reaches the lifetime, and never when it is still below. -/
theorem solarFlare_destroyed_iff_lifetime (w : FlareWorld) (ds : List ℝ)
    (hage : w.flare.age = 0) (hdes : w.flare.destroyed = false)
    (hL : 0 < w.flare.lifetime) (hpos : ∀ d ∈ ds, 0 < d) :
    ((w.run ds).flare.destroyed = true ↔ w.flare.lifetime ≤ ds.sum) ∧
    (∀ (v : FlareWorld) (d : ℝ), v.flare.destroyed = false →
      ((v.animate d).flare.destroyed = true
        ↔ v.flare.lifetime ≤ v.flare.age + d)) := by
  constructor
  · have := run_destroyed_iff ds w hdes (by rw [hage]; exact hL) hpos
    rwa [hage, zero_add] at this
  · exact fun v d hv => animate_destroyed_iff hv d

/-- A concrete fresh flare world used to instantiate the C2 theorem. -/
def sampleWorldC2 : FlareWorld :=
  { sunFlares := [5],
    flare :=
    { id := 5, age := 0, destroyed := false, size := 10, lifetime := 4
      plasmaTrails := 4, flareCount := 3, turbulance := 1
      shaderOpacity := 1, shaderSpeed := 1
      fallingBackMat := ⟨1, 0⟩, flyAwayMat := ⟨1, 0⟩
      fallingBackScales := [1, 1, 1], flyAwayScales := [1, 1, 1]
      flareMesh := true } }

theorem solarFlare_destroyed_iff_lifetime_witness :
    sampleWorldC2.flare.age = 0 ∧ sampleWorldC2.flare.destroyed = false ∧
    (0 : ℝ) < sampleWorldC2.flare.lifetime ∧
    (∀ d ∈ [(1 : ℝ), 2, 3], 0 < d) ∧
    (((sampleWorldC2.run [(1 : ℝ), 2, 3]).flare.destroyed = true
        ↔ sampleWorldC2.flare.lifetime ≤ ([(1 : ℝ), 2, 3]).sum) ∧
      (∀ (v : FlareWorld) (d : ℝ), v.flare.destroyed = false →
        ((v.animate d).flare.destroyed = true
          ↔ v.flare.lifetime ≤ v.flare.age + d))) := by
  have hpos : ∀ d ∈ [(1 : ℝ), 2, 3], 0 < d := by
    intro d hd
    simp only [List.mem_cons, List.not_mem_nil, or_false] at hd
    rcases hd with rfl | rfl | rfl <;> norm_num
  exact ⟨rfl, rfl, by norm_num [sampleWorldC2], hpos,
    solarFlare_destroyed_iff_lifetime sampleWorldC2 [1, 2, 3] rfl rfl
      (by norm_num [sampleWorldC2]) hpos⟩

/-- Claim C3: once `destroyed` is true both `animate` and `destroy` are
no-ops that leave the flare state and the orchestrator registry unchanged;
and after any `destroy`, further `destroy` and `animate` calls change
nothing, so the registry removal and mesh release happen at most once. -/
theorem solarFlare_destroyed_absorbing (w : FlareWorld) (deltaTime : ℝ)
    (h : w.flare.destroyed = true) :
    w.animate deltaTime = w ∧ w.destroy = w ∧
    (∀ v : FlareWorld,
      v.destroy.destroy = v.destroy ∧
      v.destroy.animate deltaTime = v.destroy) := by
  refine ⟨animate_of_destroyed h deltaTime, destroy_of_destroyed h, fun v => ?_⟩
  exact ⟨destroy_of_destroyed (destroy_flare_destroyed v),
    animate_of_destroyed (destroy_flare_destroyed v) deltaTime⟩

/-- A concrete already-destroyed flare world used to instantiate the C3
theorem. -/
def sampleWorldC3 : FlareWorld :=
  { sunFlares := [],
    flare :=
    { id := 9, age := 6, destroyed := true, size := 10, lifetime := 4
      plasmaTrails := 4, flareCount := 3, turbulance := 1
      shaderOpacity := 1, shaderSpeed := 1
      fallingBackMat := ⟨1, 0⟩, flyAwayMat := ⟨1, 0⟩
      fallingBackScales := [], flyAwayScales := []
      flareMesh := false } }

theorem solarFlare_destroyed_absorbing_witness :
    sampleWorldC3.flare.destroyed = true ∧
    (sampleWorldC3.animate 1 = sampleWorldC3 ∧
      sampleWorldC3.destroy = sampleWorldC3 ∧
      (∀ v : FlareWorld,
        v.destroy.destroy = v.destroy ∧ v.destroy.animate 1 = v.destroy)) :=
  ⟨rfl, solarFlare_destroyed_absorbing sampleWorldC3 1 rfl⟩

/-- The `SunCoronaOptions` fields that the corona animation logic reads
(services/sun-corona.service.ts interface; colour and falloff fields are only
copied verbatim into shader uniforms and are not tracked). -/
structure CoronaOptions where
  active : Bool
  size : ℝ
  scale : ℝ
  speed : ℝ
  animationSpeed : ℝ
  syncWithSun : Bool
  wrapRotation : Bool
  enablePulsing : Bool
  pulseFrequency : ℝ
  pulseAmplitude : ℝ
  enableMultiAxisReaction : Bool
  rotationReactivity : ℝ
  rotationDecay : ℝ
  reactiveScaling : ℝ

/-- Mutable state of one `SunCorona` instance: its options, the private
accumulators, the cached last-observed sun rotation and camera position, and
the mesh fields the animation writes.  `meshRotZ` is the z-component of the
mesh rotation after the frame's assignments (the `lookAt` orientation of the
other two axes is not tracked; every revision reassigns `rotation.z` after
`lookAt` wherever it writes it at all). -/
structure CoronaState where
  opts : CoronaOptions
  rotationAccumulator : ℝ
  reactAcc : Vec3
  lastSunRotation : Option Vec3
  lastCameraPosition : Option Vec3
  meshRotZ : ℝ
  meshScale : ℝ
  meshVisible : Bool
  serviceTime : ℝ

/-- Per-frame sun-rotation delta (zero on the first frame, before
`lastSunRotation` is cached). -/
def sunRotationDelta : Option Vec3 → Vec3 → Vec3
  | none, _ => ⟨0, 0, 0⟩
  | some r, current => ⟨current.x - r.x, current.y - r.y, current.z - r.z⟩

/-- The camera hysteresis check: true when no camera position is cached yet or
the camera moved farther than the fixed 0.001 threshold. -/
def cameraMoved : Option Vec3 → Vec3 → Prop
  | none, _ => True
  | some p, cam => 1 / 1000 < distTo p cam

/-- One axis of the reactive accumulation of part_007 `SunCorona.animate`
(lines 244-253): `acc += delta * reactivity` followed by `acc *= decayRate`. -/
def reactiveStep (reactivity decayRate delta acc : ℝ) : ℝ :=
  (acc + delta * reactivity) * decayRate

open Classical in
/-- `SunCorona.animate` of revision part_007 (lines 159-284).  When inactive
only the visibility flag changes; otherwise the service clock advances, the
sun-rotation delta is tracked, the camera cache updates behind the
hysteresis check, the z-rotation is driven (synced or accumulated, the
accumulated value wrapped with the JS `%` when past 2π), the reactive
accumulator is incremented and decayed on every axis, the multi-axis wobble
is folded into the z-rotation, and pulsing recomputes the scale.
`rotationReactivity || 0.3` style defaulting means a configured 0 falls back
to the default. -/
def SunCorona.animateV7 (c : CoronaState) (deltaTime : ℝ)
    (sunRotation cameraPosition : Vec3) : CoronaState :=
  if c.opts.active = false then { c with meshVisible := false }
  else
    let delta := sunRotationDelta c.lastSunRotation sunRotation
    let lastCam1 : Option Vec3 :=
      if cameraMoved c.lastCameraPosition cameraPosition then some cameraPosition
      else c.lastCameraPosition
    let reactivity := orDefault c.opts.rotationReactivity (3 / 10)
    let decayRate := orDefault c.opts.rotationDecay (98 / 100)
    let rotAcc1 :=
      if c.opts.syncWithSun then c.rotationAccumulator
      else
        let ra := c.rotationAccumulator + deltaTime * c.opts.speed
        if c.opts.wrapRotation = true ∧ 2 * Real.pi < |ra| then
          jsMod ra (2 * Real.pi)
        else ra
    let rotZ1 :=
      if c.opts.syncWithSun then sunRotation.y * c.opts.speed + c.reactAcc.z
      else rotAcc1 + c.reactAcc.z
    let acc1 : Vec3 :=
      ⟨reactiveStep reactivity decayRate delta.x c.reactAcc.x,
       reactiveStep reactivity decayRate delta.y c.reactAcc.y,
       reactiveStep reactivity decayRate delta.z c.reactAcc.z⟩
    let rotZ2 :=
      if c.opts.enableMultiAxisReaction then
        rotZ1 + (Real.sin (acc1.x * 2) * (1 / 10)
          + Real.cos (acc1.y * 2) * (1 / 10))
      else rotZ1
    let scale1 :=
      if c.opts.enablePulsing then
        orDefault c.opts.scale 1
          + Real.sin (rotAcc1 * c.opts.pulseFrequency) * c.opts.pulseAmplitude
          + Real.sqrt (delta.x * delta.x + delta.y * delta.y + delta.z * delta.z)
            * orDefault c.opts.reactiveScaling (5 / 100)
      else c.meshScale
    { c with
      meshVisible := true
      serviceTime := c.serviceTime + deltaTime * c.opts.animationSpeed
      lastSunRotation := some sunRotation
      lastCameraPosition := lastCam1
      rotationAccumulator := rotAcc1
      reactAcc := acc1
      meshRotZ := rotZ2
      meshScale := scale1 }

open Classical in
/-- `SunCorona.animate` of revision part_008 (lines 111-202): `setOptions`
resets the mesh scale to `options.scale` every frame, the sun-rotation delta
is tracked unconditionally, but everything from the camera check onward —
including the reactive accumulate-and-decay step — runs only when the camera
moved beyond the threshold (or was never cached). -/
def SunCorona.animateV8 (c : CoronaState) (deltaTime : ℝ)
    (sunRotation cameraPosition : Vec3) : CoronaState :=
  if c.opts.active = false then { c with meshVisible := false }
  else
    let delta := sunRotationDelta c.lastSunRotation sunRotation
    let c1 := { c with
      meshVisible := true
      meshScale := c.opts.scale
      serviceTime := c.serviceTime + deltaTime * c.opts.animationSpeed
      lastSunRotation := some sunRotation }
    if cameraMoved c.lastCameraPosition cameraPosition then
      let reactivity := orDefault c.opts.rotationReactivity (3 / 10)
      let decayRate := orDefault c.opts.rotationDecay (98 / 100)
      let rotAcc1 :=
        if c.opts.syncWithSun then c.rotationAccumulator
        else
          let ra := c.rotationAccumulator + deltaTime * c.opts.speed
          if c.opts.wrapRotation = true ∧ 2 * Real.pi < |ra| then
            jsMod ra (2 * Real.pi)
          else ra
      let rotZ1 :=
        if c.opts.syncWithSun then sunRotation.y * c.opts.speed + c.reactAcc.z
        else rotAcc1 + c.reactAcc.z
      let acc1 : Vec3 :=
        ⟨reactiveStep reactivity decayRate delta.x c.reactAcc.x,
         reactiveStep reactivity decayRate delta.y c.reactAcc.y,
         reactiveStep reactivity decayRate delta.z c.reactAcc.z⟩
      let rotZ2 :=
        if c.opts.enableMultiAxisReaction then
          rotZ1 + (Real.sin (acc1.x * 2) * (1 / 10)
            + Real.cos (acc1.y * 2) * (1 / 10))
        else rotZ1
      let scale1 :=
        if c.opts.enablePulsing then
          orDefault c.opts.scale 1
            + Real.sin (rotAcc1 * c.opts.pulseFrequency) * c.opts.pulseAmplitude
            + Real.sqrt (delta.x * delta.x + delta.y * delta.y
              + delta.z * delta.z) * orDefault c.opts.reactiveScaling (5 / 100)
        else c1.meshScale
      { c1 with
        lastCameraPosition := some cameraPosition
        rotationAccumulator := rotAcc1
        reactAcc := acc1
        meshRotZ := rotZ2
        meshScale := scale1 }
    else c1

theorem animateV7_reactAcc (c : CoronaState) (deltaTime : ℝ)
    (sunRotation cameraPosition : Vec3) (hactive : c.opts.active = true) :
    (SunCorona.animateV7 c deltaTime sunRotation cameraPosition).reactAcc =
      ⟨reactiveStep (orDefault c.opts.rotationReactivity (3 / 10))
          (orDefault c.opts.rotationDecay (98 / 100))
          (sunRotationDelta c.lastSunRotation sunRotation).x c.reactAcc.x,
        reactiveStep (orDefault c.opts.rotationReactivity (3 / 10))
          (orDefault c.opts.rotationDecay (98 / 100))
          (sunRotationDelta c.lastSunRotation sunRotation).y c.reactAcc.y,
        reactiveStep (orDefault c.opts.rotationReactivity (3 / 10))
          (orDefault c.opts.rotationDecay (98 / 100))
          (sunRotationDelta c.lastSunRotation sunRotation).z c.reactAcc.z⟩ := by
  unfold SunCorona.animateV7
  rw [if_neg (by simp [hactive])]

theorem animateV8_reactAcc_of_not_moved (c : CoronaState) (deltaTime : ℝ)
    (sunRotation cameraPosition : Vec3) (hactive : c.opts.active = true)
    (hcam : ¬ cameraMoved c.lastCameraPosition cameraPosition) :
    (SunCorona.animateV8 c deltaTime sunRotation cameraPosition).reactAcc
      = c.reactAcc := by
  unfold SunCorona.animateV8
  rw [if_neg (by simp [hactive]), if_neg hcam]

/-- Reactive accumulator iterated from 0 under a constant per-frame delta,
exactly the per-axis step of part_007 lines 244-253. -/
def reactiveSeq (delta reactivity decayRate : ℝ) : ℕ → ℝ
  | 0 => 0
  | n + 1 =>
    reactiveStep reactivity decayRate delta (reactiveSeq delta reactivity decayRate n)

theorem reactiveSeq_closed (delta r k : ℝ) (hk : k ≠ 1) (n : ℕ) :
    reactiveSeq delta r k n = delta * r * k / (1 - k) * (1 - k ^ n) := by
  have h1k : (1 : ℝ) - k ≠ 0 := sub_ne_zero.mpr (Ne.symm hk)
  induction n with
  | zero => simp [reactiveSeq]
  | succ n ih =>
    rw [reactiveSeq, ih, reactiveStep]
    field_simp
    ring

theorem reactiveSeq_bound (delta r k : ℝ) (h0 : 0 < k) (h1 : k < 1) (n : ℕ) :
    |reactiveSeq delta r k n| ≤ |delta * r| * k / (1 - k) := by
  rw [reactiveSeq_closed delta r k h1.ne n, abs_mul]
  have hk0 : (0 : ℝ) ≤ k ^ n := pow_nonneg h0.le n
  have hk1 : k ^ n ≤ 1 := pow_le_one₀ h0.le h1.le
  have h2 : |1 - k ^ n| ≤ 1 := by rw [abs_le]; constructor <;> linarith
  have h3 : |delta * r * k / (1 - k)| = |delta * r| * k / (1 - k) := by
    rw [abs_div, abs_mul, abs_of_pos h0,
      abs_of_pos (by linarith : (0 : ℝ) < 1 - k)]
  calc |delta * r * k / (1 - k)| * |1 - k ^ n|
      ≤ |delta * r * k / (1 - k)| * 1 :=
        mul_le_mul_of_nonneg_left h2 (abs_nonneg _)
    _ = |delta * r| * k / (1 - k) := by rw [mul_one, h3]

theorem reactiveSeq_tendsto (delta r k : ℝ) (h0 : 0 < k) (h1 : k < 1) :
    Filter.Tendsto (reactiveSeq delta r k) Filter.atTop
      (nhds (delta * r * k / (1 - k))) := by
  have hpow : Filter.Tendsto (fun n : ℕ => k ^ n) Filter.atTop (nhds 0) :=
    tendsto_pow_atTop_nhds_zero_of_lt_one h0.le h1
  have hlim : Filter.Tendsto
      (fun n : ℕ => delta * r * k / (1 - k) * (1 - k ^ n)) Filter.atTop
      (nhds (delta * r * k / (1 - k) * (1 - 0))) :=
    (tendsto_const_nhds.sub hpow).const_mul _
  rw [sub_zero, mul_one] at hlim
  exact hlim.congr fun n => (reactiveSeq_closed delta r k h1.ne n).symm

/-- Claim C4 (amended): with `0 < decay < 1` and a constant per-frame delta,
the reactive accumulator iteration stays bounded for every frame count and
converges — but to `delta*reactivity*decay/(1-decay)` (the decay multiplies
the freshly incremented value), not to `delta*reactivity/(1-decay)`; the
per-axis update of the corona animation is exactly this step. -/
theorem corona_reactiveSeq_bounded_converges (delta r k : ℝ)
    (h0 : 0 < k) (h1 : k < 1) :
    (∀ n, |reactiveSeq delta r k n| ≤ |delta * r| * k / (1 - k)) ∧
    Filter.Tendsto (reactiveSeq delta r k) Filter.atTop
      (nhds (delta * r * k / (1 - k))) ∧
    (∀ (c : CoronaState) (dt : ℝ) (rot cam r0 : Vec3),
      c.opts.active = true → c.lastSunRotation = some r0 →
      (SunCorona.animateV7 c dt rot cam).reactAcc.x
        = reactiveStep (orDefault c.opts.rotationReactivity (3 / 10))
            (orDefault c.opts.rotationDecay (98 / 100)) (rot.x - r0.x)
            c.reactAcc.x) := by
  refine ⟨reactiveSeq_bound delta r k h0 h1, reactiveSeq_tendsto delta r k h0 h1,
    fun c dt rot cam r0 hactive hlast => ?_⟩
  rw [animateV7_reactAcc c dt rot cam hactive, hlast]
  simp [sunRotationDelta]

theorem corona_reactiveSeq_bounded_converges_witness :
    (0 : ℝ) < 1 / 2 ∧ (1 / 2 : ℝ) < 1 ∧
    ((∀ n, |reactiveSeq 1 1 (1 / 2) n| ≤ |(1 : ℝ) * 1| * (1 / 2) / (1 - 1 / 2)) ∧
    Filter.Tendsto (reactiveSeq 1 1 (1 / 2)) Filter.atTop
      (nhds (1 * 1 * (1 / 2) / (1 - 1 / 2))) ∧
    (∀ (c : CoronaState) (dt : ℝ) (rot cam r0 : Vec3),
      c.opts.active = true → c.lastSunRotation = some r0 →
      (SunCorona.animateV7 c dt rot cam).reactAcc.x
        = reactiveStep (orDefault c.opts.rotationReactivity (3 / 10))
            (orDefault c.opts.rotationDecay (98 / 100)) (rot.x - r0.x)
            c.reactAcc.x)) :=
  ⟨by norm_num, by norm_num,
    corona_reactiveSeq_bounded_converges 1 1 (1 / 2) (by norm_num) (by norm_num)⟩

/-- The limit claimed for the reactive accumulator is wrong on the code: for
delta = 1, reactivity = 1, decay = 1/2 the iteration converges to 1, not to
`1*1/(1-1/2) = 2`. -/
theorem corona_reactive_limit_counterexample :
    Filter.Tendsto (reactiveSeq 1 1 (1 / 2)) Filter.atTop (nhds 1) ∧
    ¬ Filter.Tendsto (reactiveSeq 1 1 (1 / 2)) Filter.atTop
        (nhds (1 * 1 / (1 - 1 / 2))) := by
  have h := reactiveSeq_tendsto 1 1 (1 / 2) (by norm_num) (by norm_num)
  have h1 : (1 * 1 * (1 / 2 : ℝ) / (1 - 1 / 2)) = 1 := by norm_num
  rw [h1] at h
  refine ⟨h, fun hcon => ?_⟩
  have := tendsto_nhds_unique h hcon
  norm_num at this

/-- Claim C5 (amended): in the part_007 revision the reactive accumulation
step runs on every active frame — each axis becomes
`(acc + delta*reactivity)*decay` (with the `|| 0.3` and `|| 0.98` JS
defaulting) regardless of the camera check; in the part_008 revision the
step is gated inside the camera-reorientation branch, so when the camera has
not moved past the threshold the accumulator is left exactly unchanged (not
even decayed). -/
theorem corona_reactive_step_gating (c : CoronaState) (deltaTime : ℝ)
    (sunRotation cameraPosition r0 : Vec3)
    (hactive : c.opts.active = true) (hlast : c.lastSunRotation = some r0) :
    ((SunCorona.animateV7 c deltaTime sunRotation cameraPosition).reactAcc
      = ⟨(c.reactAcc.x + (sunRotation.x - r0.x)
            * orDefault c.opts.rotationReactivity (3 / 10))
          * orDefault c.opts.rotationDecay (98 / 100),
        (c.reactAcc.y + (sunRotation.y - r0.y)
            * orDefault c.opts.rotationReactivity (3 / 10))
          * orDefault c.opts.rotationDecay (98 / 100),
        (c.reactAcc.z + (sunRotation.z - r0.z)
            * orDefault c.opts.rotationReactivity (3 / 10))
          * orDefault c.opts.rotationDecay (98 / 100)⟩) ∧
    (¬ cameraMoved c.lastCameraPosition cameraPosition →
      (SunCorona.animateV8 c deltaTime sunRotation cameraPosition).reactAcc
        = c.reactAcc) := by
  constructor
  · rw [animateV7_reactAcc c deltaTime sunRotation cameraPosition hactive, hlast]
    simp [sunRotationDelta, reactiveStep]
  · exact fun hcam =>
      animateV8_reactAcc_of_not_moved c deltaTime sunRotation cameraPosition
        hactive hcam

/-- A concrete active corona state whose camera cache coincides with the
current camera position (so the hysteresis check fails) while the sun is
still rotating. -/
def sampleCoronaC5 : CoronaState :=
  { opts :=
    { active := true, size := 4, scale := 1, speed := 1, animationSpeed := 1
      syncWithSun := true, wrapRotation := true, enablePulsing := false
      pulseFrequency := 0, pulseAmplitude := 0
      enableMultiAxisReaction := false
      rotationReactivity := 3 / 10, rotationDecay := 49 / 50
      reactiveScaling := 1 / 20 }
    rotationAccumulator := 0
    reactAcc := ⟨0, 0, 0⟩
    lastSunRotation := some ⟨0, 0, 0⟩
    lastCameraPosition := some ⟨0, 0, 0⟩
    meshRotZ := 0, meshScale := 1, meshVisible := true, serviceTime := 0 }

theorem sampleCoronaC5_camera_not_moved :
    ¬ cameraMoved sampleCoronaC5.lastCameraPosition ⟨0, 0, 0⟩ := by
  have hd : distTo ⟨0, 0, 0⟩ ⟨0, 0, 0⟩ = 0 := by
    simp [distTo]
  show ¬ (1 / 1000 < distTo ⟨0, 0, 0⟩ ⟨0, 0, 0⟩)
  rw [hd]
  norm_num

/-- In the part_008 revision an active frame in which the camera has not
moved leaves the reactive accumulator untouched even though the sun-rotation
delta is (1,1,1): the accumulator stays 0 while the claimed unconditional
update would have produced `(0 + 1·0.3)·0.98 ≠ 0`. -/
theorem corona_reactive_step_gated_counterexample :
    (SunCorona.animateV8 sampleCoronaC5 1 ⟨1, 1, 1⟩ ⟨0, 0, 0⟩).reactAcc.x = 0 ∧
    ((sampleCoronaC5.reactAcc.x
        + ((1 : ℝ) - 0) * sampleCoronaC5.opts.rotationReactivity)
      * sampleCoronaC5.opts.rotationDecay ≠ 0) := by
  constructor
  · rw [animateV8_reactAcc_of_not_moved sampleCoronaC5 1 ⟨1, 1, 1⟩ ⟨0, 0, 0⟩
      rfl sampleCoronaC5_camera_not_moved]
    rfl
  · show ((0 : ℝ) + (1 - 0) * (3 / 10)) * (49 / 50) ≠ 0
    norm_num

theorem corona_reactive_step_gating_witness :
    sampleCoronaC5.opts.active = true ∧
    sampleCoronaC5.lastSunRotation = some ⟨0, 0, 0⟩ ∧
    (((SunCorona.animateV7 sampleCoronaC5 1 ⟨1, 1, 1⟩ ⟨2, 2, 2⟩).reactAcc
      = ⟨(sampleCoronaC5.reactAcc.x + ((1 : ℝ) - (0 : ℝ))
            * orDefault sampleCoronaC5.opts.rotationReactivity (3 / 10))
          * orDefault sampleCoronaC5.opts.rotationDecay (98 / 100),
        (sampleCoronaC5.reactAcc.y + ((1 : ℝ) - (0 : ℝ))
            * orDefault sampleCoronaC5.opts.rotationReactivity (3 / 10))
          * orDefault sampleCoronaC5.opts.rotationDecay (98 / 100),
        (sampleCoronaC5.reactAcc.z + ((1 : ℝ) - (0 : ℝ))
            * orDefault sampleCoronaC5.opts.rotationReactivity (3 / 10))
          * orDefault sampleCoronaC5.opts.rotationDecay (98 / 100)⟩) ∧
    (¬ cameraMoved sampleCoronaC5.lastCameraPosition ⟨2, 2, 2⟩ →
      (SunCorona.animateV8 sampleCoronaC5 1 ⟨1, 1, 1⟩ ⟨2, 2, 2⟩).reactAcc
        = sampleCoronaC5.reactAcc)) :=
  ⟨rfl, rfl,
    corona_reactive_step_gating sampleCoronaC5 1 ⟨1, 1, 1⟩ ⟨2, 2, 2⟩ ⟨0, 0, 0⟩
      rfl rfl⟩

/-- `SolarFlareOptions` (solar-flare.ts): the five numeric options drawn by
the eruption scheduler. -/
structure SolarFlareOptions where
  size : ℝ
  lifetime : ℝ
  plasmaTrails : ℝ
  flareCount : ℝ
  turbulance : ℝ

/-- The `shader` sub-object of `SolarEruptionFlareOptions`
(three-sun.service.ts lines 36-45). -/
structure EruptionShaderOptions where
  emissiveStrength : ℝ
  opacity : ℝ
  distortionScale : ℝ
  fadeStart : ℝ
  fadeEnd : ℝ
  noiseScaleX : ℝ
  noiseScaleY : ℝ
  speed : ℝ

/-- `SolarEruptionFlareOptions` (three-sun.service.ts lines 33-46). -/
structure SolarEruptionFlareOptions where
  min : SolarFlareOptions
  max : SolarFlareOptions
  shader : EruptionShaderOptions

/-- The five `Math.random()` draws consumed by one
`generateRandomFlareOptions` call, in source order. -/
structure FlareDraws where
  uSize : ℝ
  uLifetime : ℝ
  uPlasmaTrails : ℝ
  uFlareCount : ℝ
  uTurbulance : ℝ

/-- `ThreeSunService.generateRandomFlareOptions` (lines 213-239): every field
interpolates uniformly between its configured min and max; `plasmaTrails` and
`flareCount` are floored after interpolation. -/
def generateRandomFlareOptions (cfg : SolarEruptionFlareOptions)
    (d : FlareDraws) : SolarFlareOptions :=
  { size := randomBetween cfg.min.size cfg.max.size d.uSize
    lifetime := randomBetween cfg.min.lifetime cfg.max.lifetime d.uLifetime
    plasmaTrails :=
      mathFloor (randomBetween cfg.min.plasmaTrails cfg.max.plasmaTrails
        d.uPlasmaTrails)
    flareCount :=
      mathFloor (randomBetween cfg.min.flareCount cfg.max.flareCount
        d.uFlareCount)
    turbulance :=
      randomBetween cfg.min.turbulance cfg.max.turbulance d.uTurbulance }

/-- `SolarEruptionOptions` (three-sun.service.ts lines 47-58), with the
nested `min.count`/`max.count` and `min.interval`/`max.interval` pairs
flattened. -/
structure SolarEruptionOptions where
  active : Bool
  minCount : ℝ
  maxCount : ℝ
  minInterval : ℝ
  maxInterval : ℝ
  flareOptions : SolarEruptionFlareOptions

/-- Outcome of one `scheduleNext` invocation: how many `spawnFlare` calls it
made and the delay of the single timer it arms. -/
structure EruptionCycleResult where
  spawnCalls : ℕ
  nextDelayMs : ℝ

/-- One invocation of `scheduleNext` in
`ThreeSunService.startSolarEruptionLoop` (lines 142-161): when the document
is not visible, no `spawnFlare` call is made and a fixed 1000 ms recheck
timer is armed; otherwise `Math.floor(randomBetween(min.count, max.count))`
spawn calls run and the next cycle is armed after
`randomBetween(min.interval, max.interval)`. -/
def scheduleNextCycle (opts : SolarEruptionOptions) (visible : Bool)
    (uCount uInterval : ℝ) : EruptionCycleResult :=
  if visible = false then ⟨0, 1000⟩
  else
    ⟨(⌊randomBetween opts.minCount opts.maxCount uCount⌋).toNat,
     randomBetween opts.minInterval opts.maxInterval uInterval⟩

/-- Observed inputs of one scheduler cycle: the visibility signal and the two
random draws. -/
structure EruptionCycleInput where
  visible : Bool
  uCount : ℝ
  uInterval : ℝ

/-- Total number of `spawnFlare` calls over a sequence of scheduler cycles. -/
def runEruptionCycles (opts : SolarEruptionOptions)
    (cs : List EruptionCycleInput) : ℕ :=
  (cs.map (fun (c : EruptionCycleInput) =>
    (scheduleNextCycle opts c.visible c.uCount c.uInterval).spawnCalls)).sum

/-- Claim C6: if the visibility signal is false at every cycle, no flare is
ever spawned — for every configured count range — and each such cycle arms
exactly the fixed 1000 ms recheck timer. -/
theorem eruption_loop_invisible_never_spawns (opts : SolarEruptionOptions)
    (cs : List EruptionCycleInput) (h : ∀ c ∈ cs, c.visible = false) :
    runEruptionCycles opts cs = 0 ∧
    (∀ c ∈ cs, scheduleNextCycle opts c.visible c.uCount c.uInterval
      = ⟨0, 1000⟩) ∧
    (∀ u v : ℝ, scheduleNextCycle opts false u v = ⟨0, 1000⟩) := by
  have hcyc : ∀ u v : ℝ, scheduleNextCycle opts false u v = ⟨0, 1000⟩ :=
    fun u v => by simp [scheduleNextCycle]
  refine ⟨?_, fun c hc => by rw [h c hc]; exact hcyc _ _, hcyc⟩
  unfold runEruptionCycles
  apply List.sum_eq_zero
  intro x hx
  obtain ⟨c, hc, rfl⟩ := List.mem_map.mp hx
  rw [h c hc, hcyc]

/-- A concrete eruption configuration with a wide count range. -/
def sampleEruptionOpts : SolarEruptionOptions :=
  { active := true, minCount := 1, maxCount := 9
    minInterval := 500, maxInterval := 2000
    flareOptions :=
    { min := ⟨5, 2, 2, 1, 1/2⟩, max := ⟨20, 8, 6, 5, 3⟩
      shader := ⟨6/5, 1, 1, 9/20, 49/100, 4, 3/2, 1⟩ } }

theorem eruption_loop_invisible_never_spawns_witness :
    (∀ c ∈ [(⟨false, 1/2, 1/2⟩ : EruptionCycleInput), ⟨false, 99/100, 0⟩],
      c.visible = false) ∧
    (runEruptionCycles sampleEruptionOpts
        [⟨false, 1/2, 1/2⟩, ⟨false, 99/100, 0⟩] = 0 ∧
      (∀ c ∈ [(⟨false, 1/2, 1/2⟩ : EruptionCycleInput), ⟨false, 99/100, 0⟩],
        scheduleNextCycle sampleEruptionOpts c.visible c.uCount c.uInterval
          = ⟨0, 1000⟩) ∧
      (∀ u v : ℝ, scheduleNextCycle sampleEruptionOpts false u v
        = ⟨0, 1000⟩)) := by
  have h : ∀ c ∈ [(⟨false, 1/2, 1/2⟩ : EruptionCycleInput), ⟨false, 99/100, 0⟩],
      c.visible = false := by
    intro c hc
    simp only [List.mem_cons, List.not_mem_nil, or_false] at hc
    rcases hc with rfl | rfl <;> rfl
  exact ⟨h, eruption_loop_invisible_never_spawns sampleEruptionOpts _ h⟩

/-- The rotation options group (three-sun.service.ts lines 61-64). -/
structure RotationOptions where
  direction : Vec3
  speed : ℝ

/-- The `ThreeSunOptions` groups that the update logic reads (the shader
colour options are copied verbatim into uniforms and are not tracked). -/
structure ThreeSunOptions where
  rotation : RotationOptions
  solarEruptions : SolarEruptionOptions

/-- State of one corona of the revision actually imported by
three-sun.service.ts (classes/sun-corona.ts): service clock plus the local
z-spin applied on top of the billboard orientation each frame. -/
structure SunCoronaSimple where
  speed : ℝ
  animationSpeed : ℝ
  serviceTime : ℝ
  meshRotZ : ℝ

/-- classes/sun-corona.ts `animate` (lines 68-84): advance the corona service
clock by `deltaTime * animationSpeed`, re-billboard (untracked), and
`rotateZ(deltaTime * speed)`. -/
def SunCoronaSimple.animate (c : SunCoronaSimple) (deltaTime : ℝ) :
    SunCoronaSimple :=
  { c with
    serviceTime := c.serviceTime + deltaTime * c.animationSpeed
    meshRotZ := c.meshRotZ + deltaTime * c.speed }

/-- State of the `ThreeSunService` orchestrator: its options, the sun mesh
rotation, the surface shader clock, the corona collection and the active
flare list. -/
structure ThreeSunState where
  options : ThreeSunOptions
  rotation : Vec3
  shaderTime : ℝ
  coronas : List SunCoronaSimple
  solarFlares : List SolarFlare

/-- `ThreeSunService.animateSunMesh` (lines 272-279): each rotation axis
increments by `direction[axis] * speed`; the `deltaTime` argument is never
read. -/
def ThreeSunService.animateSunMesh (s : ThreeSunState) (_deltaTime : ℝ) :
    ThreeSunState :=
  { s with rotation :=
    ⟨s.rotation.x + s.options.rotation.direction.x * s.options.rotation.speed,
     s.rotation.y + s.options.rotation.direction.y * s.options.rotation.speed,
     s.rotation.z + s.options.rotation.direction.z * s.options.rotation.speed⟩ }

/-- The flare phase of `ThreeSunService.animate`:
`this.solarFlares.forEach((flare) => flare.animate(deltaTime))`, where a
flare whose lifetime expires splices itself out of the array mid-iteration.
JS `forEach` fixes the visit count up front and walks one index per step, so
when the flare at index `k` removes itself the element that shifts into slot
`k` is skipped; `fuel` is the element count when iteration starts, `k` the
current index. -/
def animateFlaresLoop (deltaTime : ℝ) :
    ℕ → ℕ → List SolarFlare → List SolarFlare
  | 0, _, l => l
  | fuel + 1, k, l =>
    if h : k < l.length then
      let f := l.get ⟨k, h⟩
      let f1 := f.animateSelf deltaTime
      if f.destroyed = false ∧ f1.destroyed = true then
        animateFlaresLoop deltaTime fuel (k + 1) (l.eraseIdx k)
      else
        animateFlaresLoop deltaTime fuel (k + 1) (l.set k f1)
    else animateFlaresLoop deltaTime fuel (k + 1) l

/-- `ThreeSunService.animate` (lines 285-291): rotate the sun mesh, advance
the surface shader clock (`SunShaderService.update` adds `deltaTime` to its
time uniform; the remaining uniform writes copy constant options), animate
every corona, then run the flare `forEach`. -/
def ThreeSunService.animate (s : ThreeSunState) (deltaTime : ℝ) :
    ThreeSunState :=
  let s1 := ThreeSunService.animateSunMesh s deltaTime
  let s2 := { s1 with shaderTime := s1.shaderTime + deltaTime }
  let cor := s2.coronas.map (fun (c : SunCoronaSimple) => c.animate deltaTime)
  let s3 := { s2 with coronas := cor }
  { s3 with solarFlares :=
      animateFlaresLoop deltaTime s3.solarFlares.length 0 s3.solarFlares }

/-- The `SolarFlare` built by `ThreeSunService.spawnFlare` after
`spawnSolarFlare` ran: a fresh live flare with the generated options, the
eruption shader options (both layer materials start with
`opacity := options.opacity` and `time := 0`), and one mesh per spawn-loop
iteration in each layer.  `newId` stands for the fresh object identity; the
random spawn position is never read by any later update and is not
tracked. -/
def mkSpawnedFlare (o : SolarFlareOptions) (sh : EruptionShaderOptions)
    (newId : ℕ) : SolarFlare :=
  let n := jsLoopCount o.flareCount
  { id := newId, age := 0, destroyed := false
    size := o.size, lifetime := o.lifetime, plasmaTrails := o.plasmaTrails
    flareCount := o.flareCount, turbulance := o.turbulance
    shaderOpacity := sh.opacity, shaderSpeed := sh.speed
    fallingBackMat := ⟨sh.opacity, 0⟩, flyAwayMat := ⟨sh.opacity, 0⟩
    fallingBackScales := List.replicate n 1
    flyAwayScales := List.replicate n 1
    flareMesh := false }

/-- `ThreeSunService.spawnFlare` (lines 245-266): a no-op when
`solarEruptions.active` is false; otherwise it generates random options,
constructs a flare and `spawnSolarFlare` pushes it onto `solarFlares`. -/
def ThreeSunService.spawnFlare (s : ThreeSunState) (d : FlareDraws)
    (newId : ℕ) : ThreeSunState :=
  if s.options.solarEruptions.active = false then s
  else
    { s with solarFlares := s.solarFlares
        ++ [mkSpawnedFlare
            (generateRandomFlareOptions s.options.solarEruptions.flareOptions d)
            s.options.solarEruptions.flareOptions.shader newId] }

/-- An externally driven operation on the service: one render-loop advance
or one scheduler-driven `spawnFlare` call. -/
inductive SunOp where
  | advance (deltaTime : ℝ)
  | spawn (draws : FlareDraws) (newId : ℕ)

/-- Dispatch of one external operation. -/
def ThreeSunService.step (s : ThreeSunState) : SunOp → ThreeSunState
  | SunOp.advance dt => ThreeSunService.animate s dt
  | SunOp.spawn d i => ThreeSunService.spawnFlare s d i

theorem step_preserves_inactive_empty {s : ThreeSunState}
    (h1 : s.options.solarEruptions.active = false)
    (h2 : s.solarFlares = []) (op : SunOp) :
    (ThreeSunService.step s op).options.solarEruptions.active = false ∧
    (ThreeSunService.step s op).solarFlares = [] := by
  cases op with
  | advance dt =>
    refine ⟨h1, ?_⟩
    have hfl : (ThreeSunService.animate s dt).solarFlares
        = animateFlaresLoop dt s.solarFlares.length 0 s.solarFlares := rfl
    show (ThreeSunService.animate s dt).solarFlares = []
    rw [hfl, h2]
    rfl
  | spawn d i =>
    have hs : ThreeSunService.step s (SunOp.spawn d i)
        = ThreeSunService.spawnFlare s d i := rfl
    have hsp : ThreeSunService.spawnFlare s d i = s := by
      unfold ThreeSunService.spawnFlare
      rw [if_pos h1]
    rw [hs, hsp]
    exact ⟨h1, h2⟩

theorem foldl_step_empty (ops : List SunOp) :
    ∀ s : ThreeSunState, s.options.solarEruptions.active = false →
      s.solarFlares = [] →
      (ops.foldl ThreeSunService.step s).solarFlares = [] := by
  induction ops with
  | nil => intro s _ h2; exact h2
  | cons op t ih =>
    intro s h1 h2
    obtain ⟨h1a, h2a⟩ := step_preserves_inactive_empty h1 h2 op
    exact ih _ h1a h2a

/-- Claim C7: with `solarEruptions.active = false`, every `spawnFlare` call
is a no-op leaving the whole state (in particular the active flare list)
unchanged, and from an empty flare list any interleaving of `advance` and
`spawnFlare` operations keeps the active flare list empty at every point. -/
theorem spawnFlare_noop_when_inactive (s : ThreeSunState)
    (hactive : s.options.solarEruptions.active = false)
    (hflares : s.solarFlares = []) :
    (∀ (d : FlareDraws) (i : ℕ), ThreeSunService.spawnFlare s d i = s) ∧
    (∀ ops : List SunOp,
      (ops.foldl ThreeSunService.step s).solarFlares = []) := by
  constructor
  · intro d i
    unfold ThreeSunService.spawnFlare
    rw [if_pos hactive]
  · exact fun ops => foldl_step_empty ops s hactive hflares

/-- A concrete orchestrator state with eruptions disabled and no flares. -/
def sampleSunInactive : ThreeSunState :=
  { options :=
    { rotation := ⟨⟨0, 1, 0⟩, 1/100⟩
      solarEruptions :=
      { active := false, minCount := 1, maxCount := 9
        minInterval := 500, maxInterval := 2000
        flareOptions :=
        { min := ⟨5, 2, 2, 1, 1/2⟩, max := ⟨20, 8, 6, 5, 3⟩
          shader := ⟨6/5, 1, 1, 9/20, 49/100, 4, 3/2, 1⟩ } } }
    rotation := ⟨0, 0, 0⟩
    shaderTime := 0
    coronas := [⟨1, 1, 0, 0⟩]
    solarFlares := [] }

theorem spawnFlare_noop_when_inactive_witness :
    sampleSunInactive.options.solarEruptions.active = false ∧
    sampleSunInactive.solarFlares = [] ∧
    ((∀ (d : FlareDraws) (i : ℕ),
        ThreeSunService.spawnFlare sampleSunInactive d i = sampleSunInactive) ∧
      (∀ ops : List SunOp,
        (ops.foldl ThreeSunService.step sampleSunInactive).solarFlares = [])) :=
  ⟨rfl, rfl, spawnFlare_noop_when_inactive sampleSunInactive rfl rfl⟩

theorem unbounded_of_ne_zero (x0 d : ℝ) (hd : d ≠ 0) (M : ℝ) :
    ∃ n : ℕ, M < |x0 + n * d| := by
  obtain ⟨n, hn⟩ := exists_nat_gt ((M + |x0|) / |d|)
  have hdpos : 0 < |d| := abs_pos.mpr hd
  rw [div_lt_iff₀ hdpos] at hn
  have h3 : |(n : ℝ) * d| ≤ |x0 + (n : ℝ) * d| + |x0| :=
    calc |(n : ℝ) * d| = |(x0 + (n : ℝ) * d) + (-x0)| :=
          congrArg abs (by ring)
      _ ≤ |x0 + (n : ℝ) * d| + |(-x0)| := abs_add _ _
      _ = |x0 + (n : ℝ) * d| + |x0| := by rw [abs_neg]
  have h2 : |(n : ℝ) * d| = (n : ℝ) * |d| := by
    rw [abs_mul, Nat.abs_cast]
  exact ⟨n, by linarith [h2 ▸ h3]⟩

theorem animateSunMesh_iterate (s : ThreeSunState) (dt : ℝ) (n : ℕ) :
    ((fun t => ThreeSunService.animateSunMesh t dt)^[n] s).options = s.options
    ∧ ((fun t => ThreeSunService.animateSunMesh t dt)^[n] s).rotation.x
      = s.rotation.x
        + n * (s.options.rotation.direction.x * s.options.rotation.speed)
    ∧ ((fun t => ThreeSunService.animateSunMesh t dt)^[n] s).rotation.y
      = s.rotation.y
        + n * (s.options.rotation.direction.y * s.options.rotation.speed)
    ∧ ((fun t => ThreeSunService.animateSunMesh t dt)^[n] s).rotation.z
      = s.rotation.z
        + n * (s.options.rotation.direction.z * s.options.rotation.speed) := by
  induction n with
  | zero => simp
  | succ n ih =>
    obtain ⟨hopt, hx, hy, hz⟩ := ih
    rw [Function.iterate_succ_apply']
    set t := (fun t => ThreeSunService.animateSunMesh t dt)^[n] s with ht
    refine ⟨hopt, ?_, ?_, ?_⟩
    · show t.rotation.x
          + t.options.rotation.direction.x * t.options.rotation.speed = _
      rw [hopt, hx]
      push_cast
      ring
    · show t.rotation.y
          + t.options.rotation.direction.y * t.options.rotation.speed = _
      rw [hopt, hy]
      push_cast
      ring
    · show t.rotation.z
          + t.options.rotation.direction.z * t.options.rotation.speed = _
      rw [hopt, hz]
      push_cast
      ring

/-- Claim C10: each `animateSunMesh` call increments every rotation axis by
exactly `direction[axis] * speed`, independently of the `deltaTime` argument
and with no clamping or wrapping; after n calls each axis equals its initial
value plus `n * direction[axis] * speed`, and when `direction[axis] * speed`
is non-zero the axis value grows without bound. -/
theorem animateSunMesh_rotation_increment (s : ThreeSunState)
    (dt dt' : ℝ) :
    ThreeSunService.animateSunMesh s dt = ThreeSunService.animateSunMesh s dt'
    ∧ ((ThreeSunService.animateSunMesh s dt).rotation.x
        = s.rotation.x
          + s.options.rotation.direction.x * s.options.rotation.speed
      ∧ (ThreeSunService.animateSunMesh s dt).rotation.y
        = s.rotation.y
          + s.options.rotation.direction.y * s.options.rotation.speed
      ∧ (ThreeSunService.animateSunMesh s dt).rotation.z
        = s.rotation.z
          + s.options.rotation.direction.z * s.options.rotation.speed)
    ∧ (∀ n : ℕ,
        ((fun t => ThreeSunService.animateSunMesh t dt)^[n] s).rotation.x
          = s.rotation.x
            + n * (s.options.rotation.direction.x * s.options.rotation.speed)
        ∧ ((fun t => ThreeSunService.animateSunMesh t dt)^[n] s).rotation.y
          = s.rotation.y
            + n * (s.options.rotation.direction.y * s.options.rotation.speed)
        ∧ ((fun t => ThreeSunService.animateSunMesh t dt)^[n] s).rotation.z
          = s.rotation.z
            + n * (s.options.rotation.direction.z * s.options.rotation.speed))
    ∧ (s.options.rotation.direction.y * s.options.rotation.speed ≠ 0 →
        ∀ M : ℝ, ∃ m : ℕ,
          M < |((fun t =>
            ThreeSunService.animateSunMesh t dt)^[m] s).rotation.y|) := by
  refine ⟨rfl, ⟨rfl, rfl, rfl⟩,
    fun n => (animateSunMesh_iterate s dt n).2, fun hd M => ?_⟩
  obtain ⟨m, hm⟩ := unbounded_of_ne_zero s.rotation.y
    (s.options.rotation.direction.y * s.options.rotation.speed) hd M
  exact ⟨m, by rw [(animateSunMesh_iterate s dt m).2.2.1]; exact hm⟩

theorem animateSunMesh_rotation_increment_witness :
    sampleSunInactive.options.rotation.direction.y
      * sampleSunInactive.options.rotation.speed ≠ 0 ∧
    ∃ m : ℕ, 1000 < |((fun t =>
      ThreeSunService.animateSunMesh t (1/60))^[m] sampleSunInactive).rotation.y| := by
  have hd : sampleSunInactive.options.rotation.direction.y
      * sampleSunInactive.options.rotation.speed ≠ 0 := by
    show (1 : ℝ) * (1/100) ≠ 0
    norm_num
  exact ⟨hd,
    (animateSunMesh_rotation_increment sampleSunInactive (1/60) (1/30)).2.2.2
      hd 1000⟩

theorem randomBetween_self (a u : ℝ) : randomBetween a a u = a := by
  simp [randomBetween]

/-- Claim C8 (amended): when every field has min = max, the generator returns
exactly the shared value for size, lifetime and turbulance, for every random
draw; the two floored fields (plasmaTrails, flareCount) return the floor of
the shared value, which coincides with it only when the value is an
integer. -/
theorem generateRandomFlareOptions_degenerate (cfg : SolarEruptionFlareOptions)
    (d : FlareDraws) (h : cfg.min = cfg.max) :
    (generateRandomFlareOptions cfg d).size = cfg.min.size ∧
    (generateRandomFlareOptions cfg d).lifetime = cfg.min.lifetime ∧
    (generateRandomFlareOptions cfg d).turbulance = cfg.min.turbulance ∧
    (generateRandomFlareOptions cfg d).plasmaTrails
      = mathFloor cfg.min.plasmaTrails ∧
    (generateRandomFlareOptions cfg d).flareCount
      = mathFloor cfg.min.flareCount := by
  unfold generateRandomFlareOptions
  rw [← h]
  simp [randomBetween_self]

/-- A degenerate range configuration in which every field's min equals its
max, with the shared flareCount value not an integer. -/
def sampleFlareCfgC8 : SolarEruptionFlareOptions :=
  { min := ⟨10, 5, 4, 5/2, 1⟩, max := ⟨10, 5, 4, 5/2, 1⟩
    shader := ⟨6/5, 1, 1, 9/20, 49/100, 4, 3/2, 1⟩ }

/-- With min = max on every field and the random draw 0 (inside [0,1)), the
generated flareCount is `⌊5/2⌋ = 2`, not the shared value `5/2`: the
degenerate range does not collapse to a point on the floored fields. -/
theorem generateRandomFlareOptions_floor_counterexample :
    sampleFlareCfgC8.min = sampleFlareCfgC8.max ∧
    (0 : ℝ) ≤ 0 ∧ (0 : ℝ) < 1 ∧
    (generateRandomFlareOptions sampleFlareCfgC8 ⟨0, 0, 0, 0, 0⟩).flareCount
      = 2 ∧
    (generateRandomFlareOptions sampleFlareCfgC8 ⟨0, 0, 0, 0, 0⟩).flareCount
      ≠ sampleFlareCfgC8.min.flareCount := by
  have hfc : (generateRandomFlareOptions sampleFlareCfgC8
      ⟨0, 0, 0, 0, 0⟩).flareCount = 2 := by
    show mathFloor (randomBetween (5/2) (5/2) 0) = 2
    rw [randomBetween_self]
    unfold mathFloor
    norm_num
  refine ⟨rfl, le_refl 0, by norm_num, hfc, ?_⟩
  rw [hfc]
  show (2 : ℝ) ≠ 5/2
  norm_num

theorem generateRandomFlareOptions_degenerate_witness :
    sampleFlareCfgC8.min = sampleFlareCfgC8.max ∧
    ((generateRandomFlareOptions sampleFlareCfgC8 ⟨1/2, 1/2, 1/2, 1/2, 1/2⟩).size
        = sampleFlareCfgC8.min.size ∧
      (generateRandomFlareOptions sampleFlareCfgC8
        ⟨1/2, 1/2, 1/2, 1/2, 1/2⟩).lifetime = sampleFlareCfgC8.min.lifetime ∧
      (generateRandomFlareOptions sampleFlareCfgC8
        ⟨1/2, 1/2, 1/2, 1/2, 1/2⟩).turbulance
        = sampleFlareCfgC8.min.turbulance ∧
      (generateRandomFlareOptions sampleFlareCfgC8
        ⟨1/2, 1/2, 1/2, 1/2, 1/2⟩).plasmaTrails
        = mathFloor sampleFlareCfgC8.min.plasmaTrails ∧
      (generateRandomFlareOptions sampleFlareCfgC8
        ⟨1/2, 1/2, 1/2, 1/2, 1/2⟩).flareCount
        = mathFloor sampleFlareCfgC8.min.flareCount) :=
  ⟨rfl, generateRandomFlareOptions_degenerate sampleFlareCfgC8
    ⟨1/2, 1/2, 1/2, 1/2, 1/2⟩ rfl⟩

/-- A flare constructed with `flareCount = 0`, before `spawnSolarFlare`
runs. -/
def sampleWorldC9 : FlareWorld :=
  { sunFlares := [],
    flare :=
    { id := 3, age := 0, destroyed := false, size := 10, lifetime := 5
      plasmaTrails := 4, flareCount := 0, turbulance := 1
      shaderOpacity := 1, shaderSpeed := 1
      fallingBackMat := ⟨1, 0⟩, flyAwayMat := ⟨1, 0⟩
      fallingBackScales := [], flyAwayScales := []
      flareMesh := false } }

/-- `spawnSolarFlare` with `flareCount = 0` still performs the spawn: the
entity is pushed onto the orchestrator's active flare list (the push after
the panel loop is unconditional), contradicting the claim that no spawn is
performed. -/
theorem spawnSolarFlare_zero_count_still_registers :
    sampleWorldC9.flare.flareCount = 0 ∧
    sampleWorldC9.spawnSolarFlare.sunFlares ≠ sampleWorldC9.sunFlares ∧
    sampleWorldC9.spawnSolarFlare.sunFlares = [sampleWorldC9.flare.id] := by
  refine ⟨rfl, ?_, rfl⟩
  show ([] : List ℕ) ++ [3] ≠ []
  simp

/-- Claim C9 (amended): `spawnSolarFlare` with `flareCount = 0` creates no
panel meshes in either layer, but the spawn itself is not suppressed: the
entity is still appended to the orchestrator's active flare list. -/
theorem spawnSolarFlare_zero_count_no_panels (w : FlareWorld)
    (h : w.flare.flareCount = 0) :
    w.spawnSolarFlare.flare.flyAwayScales = [] ∧
    w.spawnSolarFlare.flare.fallingBackScales = [] ∧
    w.spawnSolarFlare.sunFlares = w.sunFlares ++ [w.flare.id] := by
  unfold FlareWorld.spawnSolarFlare
  rw [h]
  simp [jsLoopCount]

theorem spawnSolarFlare_zero_count_no_panels_witness :
    sampleWorldC9.flare.flareCount = 0 ∧
    (sampleWorldC9.spawnSolarFlare.flare.flyAwayScales = [] ∧
      sampleWorldC9.spawnSolarFlare.flare.fallingBackScales = [] ∧
      sampleWorldC9.spawnSolarFlare.sunFlares
        = sampleWorldC9.sunFlares ++ [sampleWorldC9.flare.id]) :=
  ⟨rfl, spawnSolarFlare_zero_count_no_panels sampleWorldC9 rfl⟩

end ThreeSun
